import Mathlib

/-!
Verification of the gitbot webhook gateway (src/gitbot/__main__.py) against its
natural-language specification.

The source file registers one handler, `issue_opened_event`, on the
(kind = "issues", action = "opened") pair of a gidgethub `routing.Router`, and
exposes one aiohttp endpoint `main` on `POST /` that reads the raw body, loads
`GH_SECRET` and `GH_AUTH` from the process environment, builds an event with
`gidgethub.sansio.Event.from_http` (which verifies the webhook signature and
parses the JSON body), dispatches through the router with a fresh API client,
and returns HTTP 200.  The `__main__` block reads `PORT`, converts it with
Python `int` when present, and starts the server.

The gidgethub library (signature verifier, event parser, router) is a
dependency whose code is not under src/; those parts are modelled from the
specification (sections 4.1-4.3 and the section 9 permissiveness note) and are
marked `Modelled from the spec:` below.  Everything else is translated
directly from src/gitbot/__main__.py.

Side effects are made explicit: a handler returns the list of outbound POST
calls it performed together with an optional error; an error recorded with an
empty post list mirrors an exception raised before any outbound call.
-/

namespace Gitbot

/-- JSON-like values, as produced by parsing a webhook body.  The fragment
needed by the source: null, strings, and objects (field lists keyed by
strings, first binding wins on lookup, as in a Python dict that has no
duplicate keys). -/
inductive Json where
  | null
  | str (s : String)
  | obj (fields : List (String × Json))

/-- Dictionary lookup, `d[k]` read through `.get`: `some v` when `d` is an
object with field `k`, `none` otherwise (a missing key or a non-object mirrors
Python raising KeyError or TypeError at the access). -/
def Json.get : Json → String → Option Json
  | .obj fields, k => (fields.find? (fun p => p.1 == k)).map (fun p => p.2)
  | _, _ => none

mutual

/-- Python `repr` of a value of this JSON fragment, used by `str` on
containers: `None`, quoted strings, dictionaries with quoted keys. -/
def Json.pyRepr : Json → String
  | .null => "None"
  | .str s => "\x27" ++ s ++ "\x27"
  | .obj fields => "\x7b" ++ Json.pyReprFields fields ++ "\x7d"

/-- The comma-separated `'key': repr` items of a dictionary `repr`. -/
def Json.pyReprFields : List (String × Json) → String
  | [] => ""
  | [(k, v)] => "\x27" ++ k ++ "\x27: " ++ v.pyRepr
  | (k, v) :: rest => "\x27" ++ k ++ "\x27: " ++ v.pyRepr ++ ", " ++ Json.pyReprFields rest

end

/-- Python `str` of a value of this JSON fragment, as an f-string
interpolation `f"...\x7bauthor\x7d..."` applies it: a string interpolates as
itself, other values by their `repr`. -/
def Json.pyStr : Json → String
  | .str s => s
  | v => v.pyRepr

/-- The error kinds of the spec's section 7 that this development reaches:
`authenticationError` (signature mismatch or missing secret/signature),
`parseError` (malformed or incomplete envelope), `schemaError`
(handler-required field missing from the payload). -/
inductive BotError where
  | authenticationError
  | parseError
  | schemaError
deriving DecidableEq

/-- The inbound request headers the source path reads: the event-kind header,
the signature header, and the delivery-id header, each possibly absent. -/
structure Headers where
  event : Option String
  signature : Option String
  delivery : Option String
deriving DecidableEq

/-- A parsed webhook event: kind (from the event-kind header), delivery id,
and the parsed JSON payload.  The action is not a field: it is read out of
the payload, see `Event.action`. -/
structure Event where
  kind : String
  delivery_id : String
  data : Json

/-- The event's action: the payload's top-level "action" field when it is a
string, absent otherwise. -/
def Event.action (e : Event) : Option String :=
  match e.data.get ("action") with
  | some (.str a) => some a
  | _ => none

/-- One outbound POST call: target URL (taken unchanged from the payload) and
JSON body. -/
structure Post where
  url : Json
  data : Json

/-- The observable outcome of handling one event: the outbound POST calls
performed, in order, and the error raised (if any).  An outcome with an error
and an empty `posts` mirrors an exception raised before any outbound call. -/
structure Outcome where
  posts : List Post
  error : Option BotError

/-- A handler takes an event (the API-client capability is implicit: the calls
it would make through it are returned in the outcome). -/
abbrev Handler := Event → Outcome

/-- The acknowledgment message built by the handler's f-string:
`f"Thanks for the report @\x7bauthor\x7d! I will look into it ASAP! (I'm a bot)."`. -/
def ackMessage (author : Json) : String :=
  "Thanks for the report @" ++ author.pyStr ++ "! I will look into it ASAP! (I\x27m a bot)."

/-- The handler registered on ("issues", action="opened") in
src/gitbot/__main__.py: reads `event.data["issue"]["comments_url"]` and
`event.data["issue"]["user"]["login"]`, then performs one
`git.post(url, data={"body": message})`.  A failing dictionary access raises
(SchemaError in the spec's terms) before the outbound call. -/
def issue_opened_event (event : Event) : Outcome :=
  match event.data.get ("issue") with
  | none => { posts := [], error := some .schemaError }
  | some issue =>
    match issue.get ("comments_url") with
    | none => { posts := [], error := some .schemaError }
    | some url =>
      match issue.get ("user") with
      | none => { posts := [], error := some .schemaError }
      | some user =>
        match user.get ("login") with
        | none => { posts := [], error := some .schemaError }
        | some author =>
          { posts := [{ url := url,
                        data := Json.obj [("body", Json.str (ackMessage author))] }],
            error := none }

/-- The router's registration table.  The source registers exactly one
handler, on the exact pair ("issues", "opened"); a `none` action would be a
wildcard registration for any action. -/
def router : List ((String × Option String) × Handler) :=
  [(("issues", some "opened"), issue_opened_event)]

/-- Lookup of a registration table at one (kind, action) key. -/
def lookupRoute (table : List ((String × Option String) × Handler))
    (key : String × Option String) : Option Handler :=
  (table.find? (fun p => p.1 == key)).map (fun p => p.2)

/-- Modelled from the spec: the gidgethub `routing.Router` lookup (section
4.3), whose code is not under src/.  It looks the handler up by the exact
(kind, action) pair and falls back to the (kind, none) wildcard only when no
exact match exists. -/
def findHandler (table : List ((String × Option String) × Handler))
    (kind : String) (action : Option String) : Option Handler :=
  match lookupRoute table (kind, action) with
  | some h => some h
  | none => lookupRoute table (kind, (none : Option String))

/-- Modelled from the spec: `Router.dispatch` (section 4.3), whose code is
not under src/.  Invokes the one matching handler; a no-match is a silent
no-op; a handler failure propagates in the outcome. -/
def dispatch (event : Event) : Outcome :=
  match findHandler router event.kind event.action with
  | some h => h event
  | none => { posts := [], error := none }

/-- Modelled from the spec: the signature verifier (section 4.1), whose code
(gidgethub) is not under src/.  `sign` abstracts the keyed digest
(HMAC over the raw body with the secret); the theorems below hold for any
digest function.  Per section 4.1 and the section 9 note the source is
permissive: with no configured secret and no signature header, verification
is skipped; a signature header without a secret, a secret without a signature
header, and a digest mismatch all fail. -/
def verifySignature (sign : String → String → String) (rawBody : String)
    (signature : Option String) (secret : Option String) : Except BotError Unit :=
  match signature, secret with
  | some sig, some sec =>
      if sign sec rawBody = sig then .ok () else .error .authenticationError
  | some _, none => .error .authenticationError
  | none, some _ => .error .authenticationError
  | none, none => .ok ()

/-- Modelled from the spec: `sansio.Event.from_http` (sections 4.1 and 4.2),
whose code (gidgethub) is not under src/.  Fails with a parse error when the
event-kind header is missing or the body is not valid structured data
(`parsedBody` carries the result of JSON-parsing `rawBody`: `none` means
malformed); verifies the signature against the raw body; on success builds
the event from the kind header, the delivery header and the parsed payload. -/
def from_http (sign : String → String → String) (headers : Headers)
    (rawBody : String) (parsedBody : Option Json) (secret : Option String) :
    Except BotError Event :=
  match headers.event with
  | none => .error .parseError
  | some kind =>
    match verifySignature sign rawBody headers.signature secret with
    | .error e => .error e
    | .ok _ =>
      match parsedBody with
      | none => .error .parseError
      | some data => .ok { kind := kind, delivery_id := headers.delivery.getD "", data := data }

/-- The process environment as the source reads it: `GH_SECRET`, `GH_AUTH`,
`PORT`, each via `os.environ.get` (so `none` when unset). -/
structure Env where
  gh_secret : Option String
  gh_auth : Option String
  port : Option String
deriving DecidableEq

/-- One inbound HTTP request: headers, raw body, and the body's JSON parse
(`none` when the body is not valid JSON). -/
structure Request where
  headers : Headers
  rawBody : String
  parsedBody : Option Json

/-- The observable outcome of the endpoint on one request: the bearer token
the API client was built with, the outbound POST calls performed, and the
error raised (if any).  No error means the endpoint reached its final
`return web.Response(status=200)`. -/
structure EndpointOutcome where
  oauth_token : Option String
  posts : List Post
  error : Option BotError

/-- The `POST /` endpoint of src/gitbot/__main__.py.  Note that it reads
`GH_SECRET` and `GH_AUTH` from the environment inside the request handler, on
every request, so `env` here is the environment at request-handling time, not
at startup.  It builds the event via `from_http`, dispatches, and returns
status 200; any error propagates. -/
def main (sign : String → String → String) (env : Env) (r : Request) :
    EndpointOutcome :=
  let secret := env.gh_secret
  let oauth_token := env.gh_auth
  match from_http sign r.headers r.rawBody r.parsedBody secret with
  | .error e => { oauth_token := oauth_token, posts := [], error := some e }
  | .ok event =>
    let o := dispatch event
    { oauth_token := oauth_token, posts := o.posts, error := o.error }

/-- The HTTP status the transport sends for an endpoint outcome: the source
returns `web.Response(status=200)` when it completes; when it raises, the
transport's default error response is used, whose status this code does not
fix (`none`). -/
def statusOf (o : EndpointOutcome) : Option Nat :=
  if o.error = none then some 200 else none

/-- Startup failure of the `__main__` block. -/
inductive StartupError where
  | valueError
deriving DecidableEq

/-- Digits of a Python integer literal after the optional sign: ASCII digits
with single underscores allowed between digits, accumulating base 10. -/
def parseDigitsAux : List Char → Nat → Option Nat
  | [], acc => some acc
  | c :: rest, acc =>
    if c.isDigit then parseDigitsAux rest (acc * 10 + (c.toNat - 48))
    else if c = '_' then
      match rest with
      | c2 :: rest2 =>
          if c2.isDigit then parseDigitsAux rest2 (acc * 10 + (c2.toNat - 48))
          else none
      | [] => none
    else none

/-- A nonempty digit run: must start with a digit. -/
def parseDigits : List Char → Option Nat
  | [] => none
  | c :: rest => if c.isDigit then parseDigitsAux rest (c.toNat - 48) else none

/-- Python `int(s)` on a decimal string: surrounding whitespace is stripped,
an optional sign precedes ASCII digits with single underscores between
digits; `none` mirrors the ValueError Python raises otherwise.  (Python also
accepts non-ASCII Unicode digits, which this model rejects; no claim turns on
those.) -/
def pyInt (s : String) : Option Int :=
  let cs := ((s.toList.dropWhile (fun c => c.isWhitespace)).reverse.dropWhile
      (fun c => c.isWhitespace)).reverse
  match cs with
  | [] => none
  | c :: rest =>
    if c = '+' then (parseDigits rest).map (fun n => (n : Int))
    else if c = '-' then (parseDigits rest).map (fun n => -(n : Int))
    else (parseDigits cs).map (fun n => (n : Int))

/-- The `__main__` block's port computation: `port = os.environ.get("PORT")`,
then `port = int(port)` when it is not None.  An invalid literal raises
(ValueError) before `web.run_app` is reached; otherwise the value passed to
the server is returned (`none` = Python None, the server's default). -/
def startupPort (env : Env) : Except StartupError (Option Int) :=
  match env.port with
  | none => .ok none
  | some s =>
    match pyInt s with
    | none => .error .valueError
    | some n => .ok (some n)

/-- A concrete digest function used to instantiate the abstract `sign`
parameter in witnesses and counterexamples. -/
def sigConcat (sec body : String) : String := sec ++ body

/-- The payload of the spec's section 8 scenario: action "opened", issue with
comments_url and user alice. -/
def aliceData : Json :=
  Json.obj [("action", Json.str "opened"),
            ("issue", Json.obj [("comments_url", Json.str "https://api.example/issues/1/comments"),
                                ("user", Json.obj [("login", Json.str "alice")])])]

/-- The alice scenario as a parsed event of kind "issues". -/
def aliceEvent : Event :=
  { kind := "issues", delivery_id := "d1", data := aliceData }

/-- An environment with nothing set. -/
def envEmpty : Env := { gh_secret := none, gh_auth := none, port := none }

/-- An environment with GH_SECRET set to "k". -/
def envSecret : Env := { gh_secret := some "k", gh_auth := none, port := none }

/-- The spec's second scenario: same payload, kind header "pull_request". -/
def prHeaders : Headers :=
  { event := some "pull_request", signature := none, delivery := some "d1" }

/-- The pull_request scenario request. -/
def prRequest : Request :=
  { headers := prHeaders, rawBody := "raw", parsedBody := some aliceData }

/-- Headers carrying a signature that no digest of the body produces. -/
def badSigHeaders : Headers :=
  { event := some "issues", signature := some "WRONG", delivery := some "d2" }

/-- A request with an incorrect signature header. -/
def badSigRequest : Request :=
  { headers := badSigHeaders, rawBody := "raw", parsedBody := some aliceData }

/-- A "ping" event's headers: no signature header. -/
def pingHeaders : Headers :=
  { event := some "ping", signature := none, delivery := some "d3" }

/-- A "ping" request with an empty-object body and no signature. -/
def pingRequest : Request :=
  { headers := pingHeaders, rawBody := "raw", parsedBody := some (Json.obj []) }

/-- An "issues opened" payload with no "issue" object at all. -/
def noIssueData : Json := Json.obj [("action", Json.str "opened")]

/-- Headers of kind "issues" without a signature. -/
def issuesHeaders : Headers :=
  { event := some "issues", signature := none, delivery := some "d4" }

/-- An "issues" request whose payload lacks the handler's required fields. -/
def noIssueRequest : Request :=
  { headers := issuesHeaders, rawBody := "raw", parsedBody := some noIssueData }

/-- A "ping" request carrying the signature `sigConcat` computes for secret
"k" over body "raw". -/
def signedHeaders : Headers :=
  { event := some "ping", signature := some "kraw", delivery := some "d5" }

/-- The signed "ping" request. -/
def signedRequest : Request :=
  { headers := signedHeaders, rawBody := "raw", parsedBody := some (Json.obj []) }

/-- Whether a parse result is an authentication failure. -/
def isAuthError : Except BotError Event → Bool
  | .error .authenticationError => true
  | _ => false

/-- C1: for every valid event of kind "issues" whose payload has action
"opened" and contains issue.comments_url and issue.user.login, dispatch
performs exactly one outbound POST, its target URL is the payload's
comments_url, and its JSON body is ("body": the templated acknowledgment
addressed to the login). -/
theorem dispatch_issue_opened_single_ack (e : Event) (issue user url : Json) (login : String)
    (hk : e.kind = "issues")
    (ha : Json.get e.data ("action") = some (Json.str ("opened")))
    (hi : Json.get e.data ("issue") = some issue)
    (hu : Json.get issue ("comments_url") = some url)
    (hus : Json.get issue ("user") = some user)
    (hl : Json.get user ("login") = some (Json.str login)) :
    dispatch e =
      { posts := [{ url := url,
                    data := Json.obj [("body", Json.str ("Thanks for the report @" ++ login ++
                      "! I will look into it ASAP! (I\x27m a bot)."))] }],
        error := none } := by
  simp [dispatch, findHandler, lookupRoute, router, Event.action, hk, ha, hi, hu, hus, hl,
    issue_opened_event, ackMessage, Json.pyStr]

/-- C1 witness: the alice scenario posts the acknowledgment to the payload's
comments_url. -/
theorem dispatch_issue_opened_single_ack_witness :
    dispatch aliceEvent =
      { posts := [{ url := Json.str ("https://api.example/issues/1/comments"),
                    data := Json.obj [("body", Json.str ("Thanks for the report @alice! I will look into it ASAP! (I\x27m a bot)."))] }],
        error := none } :=
  dispatch_issue_opened_single_ack aliceEvent
    (Json.obj [("comments_url", Json.str "https://api.example/issues/1/comments"),
               ("user", Json.obj [("login", Json.str "alice")])])
    (Json.obj [("login", Json.str "alice")])
    (Json.str "https://api.example/issues/1/comments") ("alice")
    rfl rfl rfl rfl rfl rfl

/-- C2: an event whose (kind, action) pair has no registered handler is a
silent no-op: dispatch completes without error and without any outbound
call, and the endpoint responds 200. -/
theorem unmatched_event_noop (sign : String → String → String) (env : Env) (r : Request) (e : Event)
    (hp : from_http sign r.headers r.rawBody r.parsedBody env.gh_secret = Except.ok e)
    (hnh : findHandler router e.kind e.action = none) :
    dispatch e = { posts := [], error := none } ∧
    main sign env r = { oauth_token := env.gh_auth, posts := [], error := none } ∧
    statusOf (main sign env r) = some 200 := by
  have hd : dispatch e = { posts := [], error := none } := by
    unfold dispatch; rw [hnh]
  refine ⟨hd, ?_, ?_⟩ <;> simp [main, hp, hd, statusOf]

/-- C2 witness: the pull_request scenario performs no outbound call and the
endpoint responds 200. -/
theorem unmatched_event_noop_witness :
    main sigConcat envEmpty prRequest = { oauth_token := none, posts := [], error := none } :=
  (unmatched_event_noop sigConcat envEmpty prRequest
    { kind := "pull_request", delivery_id := "d1", data := aliceData } rfl rfl).2.1

/-- C3: when the computed digest does not match the supplied signature
header, or the header is missing while a secret is configured, the endpoint
raises before reaching the router: no outbound call, and the response is not
200. -/
theorem bad_signature_short_circuits (sign : String → String → String) (env : Env) (r : Request)
    (h : (∃ sig sec, r.headers.signature = some sig ∧ env.gh_secret = some sec ∧
            sign sec r.rawBody ≠ sig) ∨
         (r.headers.signature = none ∧ ∃ sec, env.gh_secret = some sec)) :
    (main sign env r).posts = [] ∧ (main sign env r).error.isSome = true ∧
    statusOf (main sign env r) ≠ some 200 := by
  have hv : verifySignature sign r.rawBody r.headers.signature env.gh_secret =
      Except.error BotError.authenticationError := by
    rcases h with ⟨sig, sec, hs, hsec, hne⟩ | ⟨hs, sec, hsec⟩
    · rw [hs, hsec]; simp [verifySignature, hne]
    · rw [hs, hsec]; exact rfl
  have hf : ∃ err, from_http sign r.headers r.rawBody r.parsedBody env.gh_secret =
      Except.error err := by
    cases he : r.headers.event with
    | none => exact ⟨BotError.parseError, by simp [from_http, he]⟩
    | some k => exact ⟨BotError.authenticationError, by simp [from_http, he, hv]⟩
  obtain ⟨err, hf⟩ := hf
  refine ⟨?_, ?_, ?_⟩ <;> simp [main, hf, statusOf]

/-- C3 witness: the incorrect-signature scenario makes no outbound call and
does not respond 200. -/
theorem bad_signature_short_circuits_witness :
    (main sigConcat envSecret badSigRequest).posts = [] ∧
    (main sigConcat envSecret badSigRequest).error.isSome = true ∧
    statusOf (main sigConcat envSecret badSigRequest) ≠ some 200 :=
  bad_signature_short_circuits sigConcat envSecret badSigRequest
    (Or.inl ⟨"WRONG", "k", rfl, rfl, by decide⟩)

/-- C4: the router looks the handler up by the exact (kind, action) pair,
falls back to the (kind, none) wildcard only when no exact match exists, and
dispatch invokes exactly the one handler found. -/
theorem router_exact_then_wildcard (table : List ((String × Option String) × Handler))
    (k : String) (a : Option String) (e : Event) :
    (∀ h, lookupRoute table (k, a) = some h → findHandler table k a = some h) ∧
    (lookupRoute table (k, a) = none →
      findHandler table k a = lookupRoute table (k, (none : Option String))) ∧
    (∀ h, findHandler router e.kind e.action = some h → dispatch e = h e) := by
  refine ⟨?_, ?_, ?_⟩
  · intro h hh; unfold findHandler; rw [hh]
  · intro hn; unfold findHandler; rw [hn]
  · intro h hh; unfold dispatch; rw [hh]

/-- C4 witness: on the alice event the router finds the exact
("issues", "opened") registration and dispatch invokes exactly it. -/
theorem router_exact_then_wildcard_witness :
    dispatch aliceEvent = issue_opened_event aliceEvent :=
  (router_exact_then_wildcard router ("issues") (some ("opened")) aliceEvent).2.2
    issue_opened_event rfl

/-- C5 counterexample: with no configured secret and no signature header,
verification succeeds (it is skipped) and the endpoint completes with 200 —
refuting that verification never succeeds without a secret. -/
theorem verification_skipped_without_secret :
    verifySignature sigConcat ("raw") none none = Except.ok () ∧
    (main sigConcat envEmpty pingRequest).error = none ∧
    statusOf (main sigConcat envEmpty pingRequest) = some 200 :=
  ⟨rfl, rfl, rfl⟩

/-- C5 amended: when a signature header is supplied, verification fails with
AuthenticationError if the secret is absent or the computed digest differs
from the supplied signature; a configured secret with a missing signature
header also fails; but when both the secret and the signature header are
absent, verification is skipped and succeeds. -/
theorem verify_fails_without_matching_secret (sign : String → String → String)
    (b sig sec : String) :
    verifySignature sign b (some sig) none = Except.error BotError.authenticationError ∧
    (sign sec b ≠ sig →
      verifySignature sign b (some sig) (some sec) = Except.error BotError.authenticationError) ∧
    verifySignature sign b none (some sec) = Except.error BotError.authenticationError ∧
    verifySignature sign b none none = Except.ok () := by
  refine ⟨rfl, ?_, rfl, rfl⟩
  intro hne
  simp [verifySignature, hne]

/-- C5 amended witness: a mismatched digest fails verification. -/
theorem verify_fails_without_matching_secret_witness :
    verifySignature sigConcat ("raw") (some ("WRONG")) (some ("k")) =
      Except.error BotError.authenticationError :=
  (verify_fails_without_matching_secret sigConcat ("raw") ("WRONG") ("k")).2.1 (by decide)

/-- C6: an "issues"/"opened" event whose payload lacks issue.comments_url or
issue.user.login makes the handler fail with SchemaError before any outbound
call, and the failure propagates through dispatch to the endpoint. -/
theorem missing_fields_schema_error (sign : String → String → String) (env : Env)
    (r : Request) (e : Event)
    (hk : e.kind = "issues")
    (ha : e.action = some ("opened"))
    (hmiss : (Json.get e.data ("issue")).bind (fun i => Json.get i ("comments_url")) = none ∨
             ((Json.get e.data ("issue")).bind (fun i => Json.get i ("user"))).bind
               (fun u => Json.get u ("login")) = none)
    (hp : from_http sign r.headers r.rawBody r.parsedBody env.gh_secret = Except.ok e) :
    issue_opened_event e = { posts := [], error := some BotError.schemaError } ∧
    main sign env r =
      { oauth_token := env.gh_auth, posts := [], error := some BotError.schemaError } := by
  have hh : issue_opened_event e = { posts := [], error := some BotError.schemaError } := by
    cases hi : Json.get e.data ("issue") with
    | none => simp [issue_opened_event, hi]
    | some issue =>
      cases hu : Json.get issue ("comments_url") with
      | none => simp [issue_opened_event, hi, hu]
      | some url =>
        cases hus : Json.get issue ("user") with
        | none => simp [issue_opened_event, hi, hu, hus]
        | some user =>
          cases hl : Json.get user ("login") with
          | none => simp [issue_opened_event, hi, hu, hus, hl]
          | some author =>
            exfalso
            rcases hmiss with h1 | h2
            · rw [hi] at h1; simp [hu] at h1
            · rw [hi] at h2; simp [hus, hl] at h2
  have hfh : findHandler router e.kind e.action = some issue_opened_event := by
    rw [hk, ha]; rfl
  have hd : dispatch e = { posts := [], error := some BotError.schemaError } := by
    unfold dispatch; rw [hfh]; exact hh
  refine ⟨hh, ?_⟩
  simp [main, hp, hd]

/-- C6 witness: an "issues opened" payload with no issue object fails with
SchemaError, no outbound call, and the error reaches the endpoint. -/
theorem missing_fields_schema_error_witness :
    main sigConcat envEmpty noIssueRequest =
      { oauth_token := none, posts := [], error := some BotError.schemaError } :=
  (missing_fields_schema_error sigConcat envEmpty noIssueRequest
    { kind := "issues", delivery_id := "d4", data := noIssueData }
    rfl rfl (Or.inl rfl) rfl).2

/-- C7: when verification, parsing and dispatch all complete without raising,
the endpoint responds 200, whether or not any handler matched. -/
theorem complete_dispatch_returns_200 (sign : String → String → String) (env : Env) (r : Request)
    (h : (main sign env r).error = none) :
    statusOf (main sign env r) = some 200 := by
  simp [statusOf, h]

/-- C7 witness: the unmatched pull_request scenario completes and the
endpoint responds 200. -/
theorem complete_dispatch_returns_200_witness :
    statusOf (main sigConcat envEmpty prRequest) = some 200 :=
  complete_dispatch_returns_200 sigConcat envEmpty prRequest rfl

/-- C8: signature verification is deterministic and depends only on the
(body, signature, secret) triple: verifying the same triple twice yields the
same result, and two requests agreeing on body, signature header and secret
(each carrying an event-kind header) agree on whether authentication
fails, whatever their other headers and payloads. -/
theorem verification_deterministic (sign : String → String → String) (b : String)
    (sig sec : Option String) (h1 h2 : Headers) (p1 p2 : Option Json)
    (hs1 : h1.signature = sig) (hs2 : h2.signature = sig)
    (he1 : h1.event.isSome = true) (he2 : h2.event.isSome = true) :
    verifySignature sign b sig sec = verifySignature sign b sig sec ∧
    isAuthError (from_http sign h1 b p1 sec) = isAuthError (from_http sign h2 b p2 sec) := by
  refine ⟨rfl, ?_⟩
  obtain ⟨k1, hk1⟩ := Option.isSome_iff_exists.mp he1
  obtain ⟨k2, hk2⟩ := Option.isSome_iff_exists.mp he2
  unfold from_http
  rw [hk1, hk2, hs1, hs2]
  cases hv : verifySignature sign b sig sec with
  | error e => rfl
  | ok u => cases p1 <;> cases p2 <;> rfl

/-- C8 witness: two different requests with the same (body, signature,
secret) triple agree on the authentication outcome. -/
theorem verification_deterministic_witness :
    isAuthError (from_http sigConcat pingHeaders ("raw") (some (Json.obj [])) none) =
      isAuthError (from_http sigConcat issuesHeaders ("raw") none none) :=
  (verification_deterministic sigConcat ("raw") none none pingHeaders issuesHeaders
    (some (Json.obj [])) none rfl rfl rfl rfl).2

/-- C9 counterexample: the endpoint reads GH_SECRET from the environment
inside the request handler, at request-handling time; two environments that
agree at startup but differ in GH_SECRET when the request is handled give
different outcomes on the same request, refuting that behavior is fixed by
the environment at startup. -/
theorem secret_read_per_request :
    (main sigConcat envEmpty signedRequest).error = some BotError.authenticationError ∧
    (main sigConcat envSecret signedRequest).error = none ∧
    main sigConcat envEmpty signedRequest ≠ main sigConcat envSecret signedRequest := by
  refine ⟨rfl, rfl, ?_⟩
  intro hcontra
  have h2 : (some BotError.authenticationError : Option BotError) = (none : Option BotError) :=
    congrArg EndpointOutcome.error hcontra
  cases h2

/-- C9 amended: the secret and token are read from the environment on each
request, not once at startup; the endpoint's outcome on a request depends on
the environment only through GH_SECRET and GH_AUTH at request-handling
time. -/
theorem endpoint_depends_on_request_time_env (sign : String → String → String)
    (e1 e2 : Env) (r : Request)
    (hs : e1.gh_secret = e2.gh_secret) (ha : e1.gh_auth = e2.gh_auth) :
    main sign e1 r = main sign e2 r := by
  unfold main; rw [hs, ha]

/-- C9 amended witness: two environments agreeing on GH_SECRET and GH_AUTH
(but not on PORT) handle a request identically. -/
theorem endpoint_depends_on_request_time_env_witness :
    main sigConcat envSecret pingRequest =
      main sigConcat { gh_secret := some "k", gh_auth := none, port := some "8080" } pingRequest :=
  endpoint_depends_on_request_time_env sigConcat envSecret
    { gh_secret := some "k", gh_auth := none, port := some "8080" } pingRequest rfl rfl

/-- C10: a PORT value that is not a valid integer literal raises from the
int conversion before the server starts; an unset PORT passes None to the
server (its default is used). -/
theorem port_startup_behavior (env : Env) :
    (∀ s, env.port = some s → pyInt s = none →
      startupPort env = Except.error StartupError.valueError) ∧
    (env.port = none → startupPort env = Except.ok none) := by
  constructor
  · intro s hs hbad; simp [startupPort, hs, hbad]
  · intro hn; simp [startupPort, hn]

/-- C10 witness: PORT = "80a" fails the integer conversion at startup. -/
theorem port_startup_behavior_witness :
    startupPort { gh_secret := none, gh_auth := none, port := some "80a" } =
      Except.error StartupError.valueError :=
  (port_startup_behavior { gh_secret := none, gh_auth := none, port := some "80a" }).1
    ("80a") rfl rfl

end Gitbot
